import Mathlib

/-!
# Verification of the crestal chat-bot orchestration core

Shallow embedding of the repository's core logic:

* `withRetry` (utils/utils.js): generic retry-with-backoff wrapper;
* `checkCredit` (src/api.js): credit fetch with synthetic default on failure;
* `sendChatMessage` (src/api.js): chat send with insufficient-balance detection;
* `startChatSession` (src/chat.js): the chat-session driver;
* `login` / `authenticate` (src/auth.js, multi-attempt variant): sign-in flow;
* `checkWalletCredit` / `initWallet` (src/wallet.js): credit snapshot, key
  normalization;
* `getWorkingProxy` (utils/proxy.js): proxy pool selection.

Asynchronous network calls are embedded as explicit outcome streams
(`Nat → Outcome α`): the k-th element is the result of the k-th attempt of
the wrapped operation.  `Math.random()`-driven quantities (jitter factors,
prompt draws, message counts, shuffles) are passed as explicit parameters.
Durations are rationals (milliseconds).
-/

set_option autoImplicit false

/-- A JavaScript error as observed by the retry logic: `status` is
`error.response.status` when the error carries an HTTP response, and
`none` for connection-level errors that have no `response` field. -/
structure JsError where
  status : Option Nat
deriving DecidableEq, Repr

/-- Result of one attempt of a wrapped asynchronous operation:
the promise either resolves with a value or rejects with an error. -/
inductive Outcome (α : Type) where
  | ok (v : α)
  | err (e : JsError)
deriving DecidableEq, Repr

/-- The retry classification from `withRetry` (utils/utils.js):
the code throws when `error.response && status !== 429 && status !== 503`,
so an error is retried exactly when it has no HTTP response or its
status is 429 or 503. -/
def retryable (e : JsError) : Bool :=
  match e.status with
  | none => true
  | some s => s == 429 || s == 503

/-- Loop body of `withRetry` (utils/utils.js lines 151-176).
`retries` is the JS `retries` counter; `budget = maxRetries - retries`
makes the recursion structural (the JS loop throws as soon as
`retries >= maxRetries`, i.e. exactly when the budget is exhausted).
Returns the final outcome together with the list of backoff delays slept,
in order. -/
def withRetryGo {α : Type} (f : Nat → Outcome α) (baseDelay maxDelay : ℚ)
    (u : Nat → ℚ) : Nat → Nat → Except JsError α × List ℚ
  | retries, budget =>
    match f retries with
    | .ok v => (.ok v, [])
    | .err e =>
      match budget with
      | 0 => (.error e, [])
      | b + 1 =>
        if retryable e then
          let d := min maxDelay (baseDelay * 2 ^ retries * u retries)
          let rest := withRetryGo f baseDelay maxDelay u (retries + 1) b
          (rest.1, d :: rest.2)
        else (.error e, [])

/-- `withRetry(fn, maxRetries, baseDelay, maxDelay)` from utils/utils.js.
`u k` is the jitter factor `0.8 + Math.random() * 0.4` drawn before the
k-th retry. -/
def withRetry {α : Type} (f : Nat → Outcome α) (maxRetries : Nat)
    (baseDelay maxDelay : ℚ) (u : Nat → ℚ) : Except JsError α × List ℚ :=
  withRetryGo f baseDelay maxDelay u 0 maxRetries

instance {ε α : Type} [DecidableEq ε] [DecidableEq α] :
    DecidableEq (Except ε α) := fun a b =>
  match a, b with
  | .ok x, .ok y =>
    if h : x = y then .isTrue (congrArg Except.ok h)
    else .isFalse (fun hc => h (Except.ok.inj hc))
  | .ok _, .error _ => .isFalse (fun hc => Except.noConfusion hc)
  | .error _, .ok _ => .isFalse (fun hc => Except.noConfusion hc)
  | .error x, .error y =>
    if h : x = y then .isTrue (congrArg Except.error h)
    else .isFalse (fun hc => h (Except.error.inj hc))

example :
    withRetry (fun k => if k = 0 then .err ⟨some 429⟩ else .ok (42 : Nat))
      3 5 1000 (fun _ => 1) = (.ok 42, [5]) := by
  norm_num [withRetry, withRetryGo, retryable]

example :
    withRetry (fun _ => (.err ⟨some 400⟩ : Outcome Nat)) 3 5 1000 (fun _ => 1) =
      (.error ⟨some 400⟩, []) := by
  norm_num [withRetry, withRetryGo, retryable]

example :
    withRetry (fun _ => (.err ⟨none⟩ : Outcome Nat)) 2 5 1000 (fun _ => 1) =
      (.error ⟨none⟩, [5, 10]) := by
  norm_num [withRetry, withRetryGo, retryable]

/-- An attempt outcome that the retry loop classifies as transient:
a rejection whose error is `retryable`. -/
def transientErr {α : Type} : Outcome α → Bool
  | .ok _ => false
  | .err e => retryable e

lemma withRetryGo_ok {α : Type} (f : Nat → Outcome α) (b M : ℚ) (u : Nat → ℚ)
    (retries budget : Nat) (v : α) (hf : f retries = .ok v) :
    withRetryGo f b M u retries budget = (.ok v, []) := by
  rw [withRetryGo, hf]

lemma withRetryGo_err_zero {α : Type} (f : Nat → Outcome α) (b M : ℚ)
    (u : Nat → ℚ) (retries : Nat) (e : JsError) (hf : f retries = .err e) :
    withRetryGo f b M u retries 0 = (.error e, []) := by
  rw [withRetryGo, hf]

lemma withRetryGo_err_stop {α : Type} (f : Nat → Outcome α) (b M : ℚ)
    (u : Nat → ℚ) (retries bd : Nat) (e : JsError) (hf : f retries = .err e)
    (hr : retryable e = false) :
    withRetryGo f b M u retries (bd + 1) = (.error e, []) := by
  rw [withRetryGo, hf]
  simp [hr]

lemma withRetryGo_err_retry {α : Type} (f : Nat → Outcome α) (b M : ℚ)
    (u : Nat → ℚ) (retries bd : Nat) (e : JsError) (hf : f retries = .err e)
    (hr : retryable e = true) :
    withRetryGo f b M u retries (bd + 1) =
      ((withRetryGo f b M u (retries + 1) bd).1,
        min M (b * 2 ^ retries * u retries) ::
          (withRetryGo f b M u (retries + 1) bd).2) := by
  rw [withRetryGo, hf]
  simp [hr]

lemma withRetryGo_delay_get? {α : Type} (f : Nat → Outcome α) (b M : ℚ)
    (u : Nat → ℚ) :
    ∀ (budget retries i : Nat) (d : ℚ),
      (withRetryGo f b M u retries budget).2.get? i = some d →
      d = min M (b * 2 ^ (retries + i) * u (retries + i)) := by
  intro budget
  induction budget with
  | zero =>
    intro retries i d hd
    rcases hf : f retries with v | e
    · rw [withRetryGo_ok f b M u retries 0 v hf] at hd
      simp at hd
    · rw [withRetryGo_err_zero f b M u retries e hf] at hd
      simp at hd
  | succ bd ih =>
    intro retries i d hd
    rcases hf : f retries with v | e
    · rw [withRetryGo_ok f b M u retries (bd + 1) v hf] at hd
      simp at hd
    · by_cases hr : retryable e
      · rw [withRetryGo_err_retry f b M u retries bd e hf hr] at hd
        rcases i with _ | i
        · simp at hd
          simp [← hd]
        · simp only [List.get?_cons_succ] at hd
          rw [ih (retries + 1) i d hd,
            show retries + 1 + i = retries + (i + 1) by omega]
      · rw [withRetryGo_err_stop f b M u retries bd e hf
          (by simpa using hr)] at hd
        simp at hd

lemma withRetryGo_exhaust {α : Type} (f : Nat → Outcome α) (b M : ℚ)
    (u : Nat → ℚ) :
    ∀ (budget retries : Nat),
      (∀ i, i ≤ budget → transientErr (f (retries + i)) = true) →
      ∃ e, f (retries + budget) = .err e ∧
        (withRetryGo f b M u retries budget).1 = .error e := by
  intro budget
  induction budget with
  | zero =>
    intro retries htr
    have h0 := htr 0 (Nat.le_refl 0)
    rw [Nat.add_zero] at h0
    rcases hf : f retries with v | e
    · rw [hf] at h0; simp [transientErr] at h0
    · refine ⟨e, ?_, ?_⟩
      · rw [Nat.add_zero]; exact hf
      · simp [withRetryGo_err_zero f b M u retries e hf]
  | succ bd ih =>
    intro retries htr
    have h0 := htr 0 (Nat.zero_le _)
    rw [Nat.add_zero] at h0
    rcases hf : f retries with v | e
    · rw [hf] at h0; simp [transientErr] at h0
    · have hr : retryable e = true := by
        rw [hf] at h0; simpa [transientErr] using h0
      obtain ⟨e2, hfe2, hres⟩ := ih (retries + 1) (fun i hi => by
        have h2 := htr (i + 1) (by omega)
        rw [show retries + (i + 1) = retries + 1 + i by omega] at h2
        exact h2)
      refine ⟨e2, ?_, ?_⟩
      · rw [show retries + (bd + 1) = retries + 1 + bd by omega]; exact hfe2
      · rw [withRetryGo_err_retry f b M u retries bd e hf hr]
        simpa using hres

lemma backoffDelay_mono (b M : ℚ) (u : Nat → ℚ) (i : Nat)
    (hb : 0 ≤ b) (hu : ∀ k, (4 / 5 : ℚ) ≤ u k ∧ u k ≤ 6 / 5) :
    min M (b * 2 ^ i * u i) ≤ min M (b * 2 ^ (i + 1) * u (i + 1)) := by
  refine min_le_min (le_refl M) ?_
  have h2 : (0 : ℚ) ≤ b * 2 ^ i := by positivity
  calc b * 2 ^ i * u i ≤ b * 2 ^ i * (6 / 5) :=
        mul_le_mul_of_nonneg_left (hu i).2 h2
    _ ≤ b * 2 ^ i * (8 / 5) := by
        apply mul_le_mul_of_nonneg_left _ h2
        norm_num
    _ = b * 2 ^ (i + 1) * (4 / 5) := by ring
    _ ≤ b * 2 ^ (i + 1) * u (i + 1) := by
        apply mul_le_mul_of_nonneg_left (hu (i + 1)).1
        positivity

/-- C6: in `withRetry`, the delay before retry number `attempt` equals
`min (maxDelay) (baseDelay * 2 ^ attempt * u attempt)` where `u attempt` is
the jitter factor drawn from `[0.8, 1.2]`; consequently the per-attempt
delays are monotonically non-decreasing across attempts and each bounded by
`maxDelay`; and when the retry cap `maxRetries` is exceeded (every attempt
up to and including attempt `maxRetries` rejects with a transient error)
the last error is surfaced to the caller. -/
theorem withRetry_backoff_policy (α : Type) (f : Nat → Outcome α)
    (maxRetries : Nat) (baseDelay maxDelay : ℚ) (u : Nat → ℚ)
    (hb : 0 ≤ baseDelay) (hu : ∀ k, (4 / 5 : ℚ) ≤ u k ∧ u k ≤ 6 / 5) :
    (∀ i d, (withRetry f maxRetries baseDelay maxDelay u).2.get? i = some d →
        d = min maxDelay (baseDelay * 2 ^ i * u i)) ∧
    (∀ i d d2,
        (withRetry f maxRetries baseDelay maxDelay u).2.get? i = some d →
        (withRetry f maxRetries baseDelay maxDelay u).2.get? (i + 1) = some d2 →
        d ≤ d2) ∧
    (∀ i d, (withRetry f maxRetries baseDelay maxDelay u).2.get? i = some d →
        d ≤ maxDelay) ∧
    ((∀ i, i ≤ maxRetries → transientErr (f i) = true) →
      ∃ e, f maxRetries = .err e ∧
        (withRetry f maxRetries baseDelay maxDelay u).1 = .error e) := by
  have hfmla : ∀ i d,
      (withRetry f maxRetries baseDelay maxDelay u).2.get? i = some d →
      d = min maxDelay (baseDelay * 2 ^ i * u i) := by
    intro i d hd
    have := withRetryGo_delay_get? f baseDelay maxDelay u maxRetries 0 i d hd
    simpa using this
  refine ⟨hfmla, ?_, ?_, ?_⟩
  · intro i d d2 hd hd2
    rw [hfmla i d hd, hfmla (i + 1) d2 hd2]
    exact backoffDelay_mono baseDelay maxDelay u i hb hu
  · intro i d hd
    rw [hfmla i d hd]
    exact min_le_left _ _
  · intro htr
    have := withRetryGo_exhaust f baseDelay maxDelay u maxRetries 0
      (fun i hi => by simpa using htr i hi)
    simpa using this

/-- Witness for C6 at a concrete input: one 503-failing operation with a
retry cap of 1 surfaces the 503 error after exhausting the cap. -/
theorem withRetry_backoff_policy_witness :
    (withRetry (fun _ => (.err ⟨some 503⟩ : Outcome Nat)) 1 5 1000
      (fun _ => 1)).1 = .error ⟨some 503⟩ := by
  obtain ⟨e, he, hres⟩ :=
    (withRetry_backoff_policy Nat (fun _ => .err ⟨some 503⟩) 1 5 1000
      (fun _ => 1) (by norm_num) (fun k => by norm_num)).2.2.2
      (fun i _ => by decide)
  injection he with h
  rw [← h] at hres
  exact hres

/-- C5 (amended): `withRetry` retries only when the failure is an HTTP
response with status 429 or 503 *or an error carrying no HTTP response*
(connection-level errors are classified transient by the code); an HTTP
response failure with any other status propagates to the caller on the
first attempt, with no sleep and no retry. -/
theorem withRetry_nonTransient_first_attempt (α : Type) (f : Nat → Outcome α)
    (maxRetries : Nat) (baseDelay maxDelay : ℚ) (u : Nat → ℚ) (e : JsError)
    (h0 : f 0 = .err e) :
    (∀ s, e.status = some s → s ≠ 429 → s ≠ 503 →
      withRetry f maxRetries baseDelay maxDelay u = (.error e, [])) ∧
    (retryable e = true → 1 ≤ maxRetries →
      1 ≤ (withRetry f maxRetries baseDelay maxDelay u).2.length) := by
  constructor
  · intro s hs h1 h2
    have hre : retryable e = false := by
      simp [retryable, hs]
      omega
    rcases maxRetries with _ | mr
    · exact withRetryGo_err_zero f baseDelay maxDelay u 0 e h0
    · exact withRetryGo_err_stop f baseDelay maxDelay u 0 mr e h0 hre
  · intro hr hm
    rcases maxRetries with _ | mr
    · omega
    · rw [show withRetry f (mr + 1) baseDelay maxDelay u =
          withRetryGo f baseDelay maxDelay u 0 (mr + 1) from rfl,
        withRetryGo_err_retry f baseDelay maxDelay u 0 mr e h0 hr]
      simp

/-- C5 counterexample: a connection-level error (an error without an HTTP
response, hence with no status at all — not a 429 or 503 response) does NOT
propagate on the first attempt: `withRetry` sleeps once and retries it,
then returns the second attempt's success. -/
theorem withRetry_connection_error_retried :
    (fun k => if k = 0 then (.err ⟨none⟩ : Outcome Nat) else .ok 42) 0 =
      .err ⟨none⟩ ∧
    withRetry (fun k => if k = 0 then (.err ⟨none⟩ : Outcome Nat) else .ok 42)
      3 5 1000 (fun _ => 1) = (.ok 42, [5]) := by
  refine ⟨rfl, ?_⟩
  norm_num [withRetry, withRetryGo, retryable]

/-- Witness for C5 (amended) at a concrete input: an HTTP 400 failure
propagates immediately with an empty delay list. -/
theorem withRetry_nonTransient_first_attempt_witness :
    withRetry (fun _ => (.err ⟨some 400⟩ : Outcome Nat)) 3 5 1000
      (fun _ => 1) = (.error ⟨some 400⟩, []) :=
  (withRetry_nonTransient_first_attempt Nat (fun _ => .err ⟨some 400⟩) 3 5 1000
    (fun _ => 1) ⟨some 400⟩ rfl).1 400 rfl (by decide) (by decide)

/-- The payload of `GET /v1/credit` as consumed by `checkCredit`
(src/api.js): each balance field may be absent from the JSON.  The JS code
carries balances as decimal strings (e.g. `"480.0000"`); they are modelled
as rationals. -/
structure CreditPayload where
  credits : Option ℚ
  free_credits : Option ℚ
deriving DecidableEq, Repr

/-- The synthetic default payload `checkCredit` builds when the fetch fails
or when both balance fields are missing: `credits: "0"`,
`free_credits: "480.0000"` (the documented default free credits). -/
def defaultCreditPayload : CreditPayload := ⟨some 0, some 480⟩

/-- `checkCredit` (src/api.js lines 49-82): fetches `/v1/credit` through
`withRetry(fn, 5, 5000, 60000)`.  On a response whose `data` has both
balance fields missing it substitutes the default payload; on a response
with a null/absent body it falls through and returns that body (JS `null`,
modelled as `none`); on a persistent failure (the retry wrapper threw) the
catch block returns the synthetic default payload. -/
def checkCredit (attempts : Nat → Outcome (Option CreditPayload))
    (u : Nat → ℚ) : Option CreditPayload :=
  match (withRetry attempts 5 5000 60000 u).1 with
  | .error _ => some defaultCreditPayload
  | .ok dataOpt =>
    match dataOpt with
    | none => none
    | some d =>
      if d.credits = none ∧ d.free_credits = none then some defaultCreditPayload
      else some d

/-- C2 counterexample: `checkCredit` does not return a usable snapshot on
*every* invocation — a fetch that succeeds with a null body makes it return
`null` (here `none`) to its caller, which `checkWalletCredit` then treats
as a failure. -/
theorem checkCredit_null_body_returns_null :
    checkCredit (fun _ => .ok none) (fun _ => 1) = none := by
  norm_num [checkCredit, withRetry, withRetryGo]

/-- C2 (amended): when the credit fetch fails persistently — the retry
wrapper (5-retry cap) surfaced an error, e.g. after 6 consecutive failures
— `checkCredit` returns the synthetic default payload (zero paid balance,
nonzero free-balance default 480) instead of propagating the error.  A
successful fetch with a null body, however, yields `none` rather than a
snapshot. -/
theorem checkCredit_persistent_failure_default
    (attempts : Nat → Outcome (Option CreditPayload)) (u : Nat → ℚ)
    (e : JsError)
    (hfail : (withRetry attempts 5 5000 60000 u).1 = .error e) :
    checkCredit attempts u = some defaultCreditPayload ∧
    defaultCreditPayload.credits = some 0 ∧
    defaultCreditPayload.free_credits = some 480 ∧ (480 : ℚ) ≠ 0 := by
  refine ⟨?_, rfl, rfl, by norm_num⟩
  unfold checkCredit
  rw [hfail]

/-- Witness for C2 (amended): the credit endpoint failing 6 consecutive
times (a 429 on attempts 0..5, exceeding the 5-retry cap) still yields the
synthetic default payload. -/
theorem checkCredit_persistent_failure_default_witness :
    checkCredit (fun _ => .err ⟨some 429⟩) (fun _ => 1) =
      some defaultCreditPayload :=
  (checkCredit_persistent_failure_default (fun _ => .err ⟨some 429⟩)
    (fun _ => 1) ⟨some 429⟩
    (by norm_num [withRetry, withRetryGo, retryable])).1

/-- The credit snapshot built by `checkWalletCredit` (src/wallet.js). -/
structure CreditSnapshot where
  creditBalance : ℚ
  freeCredits : ℚ
  totalAvailableCredits : ℚ
deriving DecidableEq, Repr

/-- `checkWalletCredit` (src/wallet.js lines 36-67), applied to the value
`checkCredit` returned: a null payload is a failure (`none`); otherwise
`creditBalance = parseFloat(creditData.credits || 0)` and
`freeCredits = parseFloat(creditData.free_credits || 0)` default each
missing field to zero, and `totalAvailableCredits` is their sum. -/
def checkWalletCredit (creditData : Option CreditPayload) :
    Option CreditSnapshot :=
  match creditData with
  | none => none
  | some d =>
    let creditBalance := d.credits.getD 0
    let freeCredits := d.free_credits.getD 0
    some ⟨creditBalance, freeCredits, creditBalance + freeCredits⟩

/-- C8: for every credit payload, the snapshot computed by
`checkWalletCredit` satisfies `totalAvailable = paidBalance + freeBalance`,
where each of the two balance fields is defaulted to zero when missing from
the payload, and the sum is exact. -/
theorem checkWalletCredit_total_invariant (d : CreditPayload)
    (snap : CreditSnapshot) (h : checkWalletCredit (some d) = some snap) :
    snap.totalAvailableCredits = snap.creditBalance + snap.freeCredits ∧
    snap.creditBalance = d.credits.getD 0 ∧
    snap.freeCredits = d.free_credits.getD 0 ∧
    (d.credits = none → snap.creditBalance = 0) ∧
    (d.free_credits = none → snap.freeCredits = 0) := by
  have hs : snap = ⟨d.credits.getD 0, d.free_credits.getD 0,
      d.credits.getD 0 + d.free_credits.getD 0⟩ := by
    simpa [checkWalletCredit] using h.symm
  subst hs
  exact ⟨rfl, rfl, rfl, fun hn => by simp [hn], fun hn => by simp [hn]⟩

/-- Witness for C8 at a concrete input: payload with a missing paid-balance
field and free balance 3 yields the snapshot (0, 3, 3). -/
theorem checkWalletCredit_total_invariant_witness :
    (⟨0, 3, 3⟩ : CreditSnapshot).totalAvailableCredits =
      (⟨0, 3, 3⟩ : CreditSnapshot).creditBalance +
        (⟨0, 3, 3⟩ : CreditSnapshot).freeCredits :=
  (checkWalletCredit_total_invariant ⟨none, some 3⟩ ⟨0, 3, 3⟩
    (by norm_num [checkWalletCredit])).1

/-- The body of a successful `/v1/login` response (src/auth.js):
both token fields may be absent. -/
structure LoginData where
  access_token : Option String
  refresh_token : Option String
deriving DecidableEq, Repr

/-- `login` (multi-attempt auth module, lines 123-169), applied to the
outcome of its inner `withRetry` call.  A thrown 404 hits the explicit
"wallet not registered" branch and returns `null`; every other thrown
error is re-thrown and then swallowed by the outer catch, which also
returns `null`; a success returns the response body. -/
def login (outcome : Except JsError LoginData) : Option LoginData :=
  match outcome with
  | .ok d => some d
  | .error e =>
    if e.status = some 404 then
      -- explicit branch: wallet may not be registered, return null
      none
    else
      -- `throw error` re-raised, caught by the outer handler: also null
      none

/-- Everything one attempt of `authenticate`'s retry loop observes from the
outside world: the SIWE init result (`none` = initSIWE returned null), the
wallet signature (`none` = falsy signature), the SIWE authenticate token
(`none` = null response or missing token), and the outcome of the login
request fed to `login`. -/
structure AttemptEnv where
  siweInit : Option String
  signature : Option String
  siweToken : Option String
  loginOutcome : Except JsError LoginData

/-- The session credential assembled on a successful attempt. -/
structure AuthData where
  accessToken : String
  refreshToken : Option String
  privyToken : String
deriving DecidableEq, Repr

/-- The `while (!authSuccess && attemptCount < maxAttempts)` loop of
`authenticate` (multi-attempt auth module, lines 213-298).  `k` is the
0-based attempt index, the second argument the remaining attempts
(`maxAttempts - k`), the third the number of `initSIWE` calls made so far.
A step failing before login `continue`s to the next attempt; a login
result of `null` (`loginData === null`) `break`s out of the loop; a login
body without `access_token` `continue`s; success stores the credential
and breaks.  Returns the overall result and the total `initSIWE` call
count. -/
def authLoop (envs : Nat → AttemptEnv) :
    Nat → Nat → Nat → Option AuthData × Nat
  | _, 0, calls => (none, calls)
  | k, r + 1, calls =>
    let env := envs k
    match env.siweInit with
    | none => authLoop envs (k + 1) r (calls + 1)
    | some _ =>
      match env.signature with
      | none => authLoop envs (k + 1) r (calls + 1)
      | some _ =>
        match env.siweToken with
        | none => authLoop envs (k + 1) r (calls + 1)
        | some tok =>
          match login env.loginOutcome with
          | none => (none, calls + 1)
          | some ld =>
            match ld.access_token with
            | none => authLoop envs (k + 1) r (calls + 1)
            | some tk => (some ⟨tk, ld.refresh_token, tok⟩, calls + 1)

/-- `authenticate` (multi-attempt auth module): up to `maxAttempts = 2`
attempts of the 4-step flow. -/
def authenticate (envs : Nat → AttemptEnv) : Option AuthData × Nat :=
  authLoop envs 0 2 0

example :
    authenticate (fun _ =>
      ⟨some "n", some "sig", some "tok", .ok ⟨some "acc", some "ref"⟩⟩) =
      (some ⟨"acc", some "ref", "tok"⟩, 1) := by
  rfl

example :
    authenticate (fun _ => ⟨none, some "sig", some "tok",
      .ok ⟨some "acc", none⟩⟩) = (none, 2) := by
  rfl

/-- C3 (amended): during one wallet's authentication, a 404 at the login
step terminates the multi-attempt loop immediately — one `initSIWE` call,
no second attempt, overall failure — but this short-circuit is not
distinctive of 404: *any* thrown login error (any status, or none) makes
`login` return null and terminates the loop identically; only a login
success response lacking `access_token` moves on to another attempt. -/
theorem authenticate_login_error_single_attempt (envs : Nat → AttemptEnv)
    (n sig tok : String) (e : JsError)
    (hinit : (envs 0).siweInit = some n)
    (hsig : (envs 0).signature = some sig)
    (htok : (envs 0).siweToken = some tok)
    (hlogin : (envs 0).loginOutcome = .error e) :
    authenticate envs = (none, 1) := by
  unfold authenticate authLoop
  dsimp only
  rw [hinit, hsig, htok, hlogin]
  unfold login
  by_cases h404 : e.status = some 404 <;> simp [h404]

/-- Witness for C3 (amended) at a concrete input: a 404 login failure on
the first attempt ends authentication with exactly one SIWE init call. -/
theorem authenticate_login_error_single_attempt_witness :
    authenticate (fun _ => ⟨some "n", some "s", some "t",
      .error ⟨some 404⟩⟩) = (none, 1) :=
  authenticate_login_error_single_attempt
    (fun _ => ⟨some "n", some "s", some "t", .error ⟨some 404⟩⟩)
    "n" "s" "t" ⟨some 404⟩ rfl rfl rfl rfl

/-- C3 counterexample: a non-404 login failure (HTTP 400) also
short-circuits the attempt loop — only one SIWE init call is made and no
second attempt happens, contradicting the claim that login failures other
than 404 do not short-circuit the loop (the max attempt count is 2, and
every earlier step of a second attempt would have succeeded). -/
theorem authenticate_non404_also_short_circuits :
    authenticate (fun _ => ⟨some "n", some "s", some "t",
      .error ⟨some 400⟩⟩) = (none, 1) := by
  rfl

/-- The value `sendChatMessage` (src/api.js lines 203-235) hands back to
the chat driver: either the response message array (`.messages`; the catch
block maps a failed send to the empty array), or the special
`{ insufficientBalance: true }` marker object. -/
inductive SendResult where
  | messages (msgs : List String)
  | insufficient
deriving DecidableEq, Repr

/-- `sendChatMessage` (src/api.js lines 203-235): posts `/v1/chat` through
`withRetry(fn, 3, 5000, 30000)`.  If the response data is a non-empty
array whose first element has message text exactly "Insufficient
balance.", it returns the marker object; otherwise it returns the data; a
throw is caught and mapped to the empty array. -/
def sendChatMessage (attempts : Nat → Outcome (List String))
    (u : Nat → ℚ) : SendResult :=
  match (withRetry attempts 3 5000 30000 u).1 with
  | .error _ => .messages []
  | .ok data =>
    if data.head? = some "Insufficient balance." then .insufficient
    else .messages data

/-- The driver's `!response || response.length === 0` test (src/chat.js
lines 52 and 109).  The marker object `{ insufficientBalance: true }` has
no `length` field, so `response.length === 0` is `undefined === 0`, i.e.
false: the marker is NOT treated as an empty response. -/
def isEmptyResponse : SendResult → Bool
  | .messages [] => true
  | .messages (_ :: _) => false
  | .insufficient => false

/-- The `do { ... } while (usedPromptIndices.has(promptIndex) && attempts
<= chatPrompts.length)` prompt-selection loop of `startChatSession`
(src/chat.js lines 80-93).  `draw t` is the t-th
`Math.floor(Math.random() * chatPrompts.length)` draw of the session;
`init` the opening prompt's index; `used` the used-index set.  The first
argument is `len - attempts` (the JS `attempts` counter starts at 0 and
the while condition only allows another iteration while `attempts <=
len`, so the loop runs at most `len + 1` times): when it reaches 0 the
iteration has `attempts > len`, so the used-set is cleared down to the
opening index and the while condition is false whatever was drawn — the
draw is accepted as chosen even if it is still in the used-set.  Returns
(chosen index, used-set after the loop, next draw position). -/
def pickGo (draw : Nat → Nat) (init : Nat) :
    Nat → Nat → List Nat → Nat × List Nat × Nat
  | k, t, used =>
    match k with
    | 0 => (draw t, [init], t + 1)
    | k2 + 1 =>
      if draw t ∈ used then pickGo draw init k2 (t + 1) used
      else (draw t, used, t + 1)

/-- The `for (let i = 0; i < promptCount; i++)` message loop of
`startChatSession` (src/chat.js lines 78-119): each iteration selects a
prompt index (attempt counter restarting at 0, so the selection budget
restarts at `len`), adds it to the used-set, and sends one message.  A
missing/empty response only `continue`s — skipping the reading pause —
so one message is sent per planned iteration regardless.  Returns the
chosen indices in order. -/
def chatLoop (draw : Nat → Nat) (len init : Nat) :
    Nat → Nat → List Nat → List Nat
  | n, t, used =>
    match n with
    | 0 => []
    | n2 + 1 =>
      (pickGo draw init len t used).1 ::
        chatLoop draw len init n2 (pickGo draw init len t used).2.2
          ((pickGo draw init len t used).1 :: (pickGo draw init len t used).2.1)

/-- Observable outcome of one `startChatSession` run. -/
structure SessionResult where
  success : Bool
  sendCalls : Nat
  chosen : List Nat
deriving DecidableEq, Repr

/-- `startChatSession` (src/chat.js lines 18-127).  `agentId` is the agent
id from `getAgentInfo` (`none` when the object lacks an `id`); `draw` the
session's stream of random index draws (`draw 0` picks the opening
prompt); `sends k` the result of the k-th `sendChatMessage` call (k = 0 is
the opening message); `len` the prompt count; `promptCount` the resolved
number of follow-up messages.  The driver fails when the agent id is
missing, and when the opening response fails the
`!initialResponse || initialResponse.length === 0` test; afterwards it
always runs every loop iteration (a failed loop response only
`continue`s).  Records success, the number of `sendChatMessage` calls,
and the loop's chosen prompt indices. -/
def startChatSession (agentId : Option Nat) (draw : Nat → Nat)
    (sends : Nat → SendResult) (len promptCount : Nat) : SessionResult :=
  match agentId with
  | none => ⟨false, 0, []⟩
  | some _ =>
    if isEmptyResponse (sends 0) then ⟨false, 1, []⟩
    else ⟨true, 1 + promptCount, chatLoop draw len (draw 0) promptCount 1 [draw 0]⟩

lemma pickGo_zero (draw : Nat → Nat) (init t : Nat) (used : List Nat) :
    pickGo draw init 0 t used = (draw t, [init], t + 1) := by
  rw [pickGo]

lemma pickGo_succ_mem (draw : Nat → Nat) (init k2 t : Nat) (used : List Nat)
    (h : draw t ∈ used) :
    pickGo draw init (k2 + 1) t used = pickGo draw init k2 (t + 1) used := by
  rw [pickGo]
  simp [h]

lemma pickGo_succ_new (draw : Nat → Nat) (init k2 t : Nat) (used : List Nat)
    (h : draw t ∉ used) :
    pickGo draw init (k2 + 1) t used = (draw t, used, t + 1) := by
  rw [pickGo]
  simp [h]

lemma pickGo_fst_is_draw (draw : Nat → Nat) (init : Nat) :
    ∀ (k t : Nat) (used : List Nat),
      ∃ t2, (pickGo draw init k t used).1 = draw t2 := by
  intro k
  induction k with
  | zero =>
    intro t used
    exact ⟨t, by rw [pickGo_zero]⟩
  | succ k2 ih =>
    intro t used
    by_cases h : draw t ∈ used
    · rw [pickGo_succ_mem draw init k2 t used h]
      exact ih (t + 1) used
    · exact ⟨t, by rw [pickGo_succ_new draw init k2 t used h]⟩

lemma chatLoop_zero (draw : Nat → Nat) (len init t : Nat) (used : List Nat) :
    chatLoop draw len init 0 t used = [] := by
  rw [chatLoop]

lemma chatLoop_succ (draw : Nat → Nat) (len init n2 t : Nat)
    (used : List Nat) :
    chatLoop draw len init (n2 + 1) t used =
      (pickGo draw init len t used).1 ::
        chatLoop draw len init n2 (pickGo draw init len t used).2.2
          ((pickGo draw init len t used).1 ::
            (pickGo draw init len t used).2.1) := by
  rw [chatLoop]

lemma chatLoop_bounds (draw : Nat → Nat) (len init : Nat)
    (hdraw : ∀ t, draw t < len) :
    ∀ (n t : Nat) (used : List Nat),
      ∀ c ∈ chatLoop draw len init n t used, c < len := by
  intro n
  induction n with
  | zero =>
    intro t used c hc
    rw [chatLoop_zero] at hc
    simp at hc
  | succ n2 ih =>
    intro t used c hc
    rw [chatLoop_succ] at hc
    rcases List.mem_cons.mp hc with hc | hc
    · obtain ⟨t2, ht2⟩ := pickGo_fst_is_draw draw init len t used
      rw [hc, ht2]
      exact hdraw t2
    · exact ih _ _ c hc

/-- C4 (amended): every prompt index chosen during a chat session is
within the bounds of the prompts list (each random draw
`Math.floor(Math.random() * len)` is below `len`), so no out-of-bounds
access occurs; however the used-set reset is driven by the per-selection
attempt counter exceeding the prompt count — which can also happen, by
chance, before all indices have been used — and after a reset the drawn
index is accepted even when it is the opening prompt's, so the opener can
repeat (see the counterexample). -/
theorem startChatSession_prompt_indices_in_bounds (agentId : Option Nat)
    (draw : Nat → Nat) (sends : Nat → SendResult) (len promptCount : Nat)
    (hdraw : ∀ t, draw t < len) :
    ∀ c ∈ (startChatSession agentId draw sends len promptCount).chosen,
      c < len := by
  intro c hc
  rcases agentId with _ | a
  · simp [startChatSession] at hc
  · by_cases h0 : isEmptyResponse (sends 0) = true
    · simp [startChatSession, h0] at hc
    · have hfalse : isEmptyResponse (sends 0) = false := eq_false_of_ne_true h0
      simp [startChatSession, hfalse] at hc
      exact chatLoop_bounds draw len (draw 0) hdraw promptCount 1 [draw 0] c hc

/-- Witness for C4 (amended) at a concrete input: with 3 prompts, draws
cycling 1,2,0,1,... and 2 follow-up messages, every chosen index is below
3. -/
theorem startChatSession_prompt_indices_in_bounds_witness :
    ((startChatSession (some 1) (fun t => (t + 1) % 3)
        (fun _ => .messages ["m"]) 3 2).chosen.all
      (fun c => decide (c < 3))) = true := by
  rw [List.all_eq_true]
  intro c hc
  have h := startChatSession_prompt_indices_in_bounds (some 1)
    (fun t => (t + 1) % 3) (fun _ => .messages ["m"]) 3 2
    (fun t => Nat.mod_lt _ (by norm_num)) c hc
  simpa using h

/-- C4 counterexample: 3 prompts, every draw hits index 0 (the opening
prompt's index).  The one follow-up selection exhausts its attempt budget
colliding with the used-set, resets the used-set at a moment when only the
opening index 0 was ever used (indices 1 and 2 were never used), and then
accepts index 0: the session's chosen-index list is [0], repeating the
opening prompt — refuting both "reset exactly when all prompt indices have
been used" and "the opening prompt is never repeated". -/
theorem startChatSession_opening_prompt_repeated :
    (startChatSession (some 4717) (fun _ => 0) (fun _ => .messages ["m"])
        3 1).chosen = [0] ∧
    pickGo (fun _ => 0) 0 3 1 [0] = (0, [0], 5) := by
  constructor <;> rfl

/-- C1 (evaluation at the failing input): when the first send's HTTP
response is an array whose first element has message text exactly
"Insufficient balance.", `sendChatMessage` returns the
`{ insufficientBalance: true }` marker — api.js even logs "Stopping chat
session." — but `startChatSession` never reads the marker: its only check,
`!response || response.length === 0`, is false for the marker object, so
with 3 prompts and 2 planned follow-ups the session sends all 3 messages
(two further sends *after* the insufficient-balance signal) and reports
success, instead of terminating with zero further messages. -/
theorem insufficient_balance_session_not_terminated :
    sendChatMessage (fun _ => .ok ["Insufficient balance."]) (fun _ => 1) =
      .insufficient ∧
    isEmptyResponse .insufficient = false ∧
    startChatSession (some 4717) (fun _ => 0)
      (fun _ => sendChatMessage (fun _ => .ok ["Insufficient balance."])
        (fun _ => 1)) 3 2 = ⟨true, 3, [0, 0]⟩ :=
  ⟨rfl, rfl, rfl⟩

/-- C7 (amended): a failed send *inside the message loop* — missing/empty
response, i.e. exhausted retries or a non-transient error mapped to `[]`
by `sendChatMessage`'s catch — is logged and skipped: whatever the loop
sends return (the `sends` stream is arbitrary from index 1 on), the
session still attempts every planned message and completes successfully.
The very first send of the session is the exception (see the
counterexample): only the opening response is required to be non-empty. -/
theorem startChatSession_loop_send_failure_not_fatal (a : Nat)
    (draw : Nat → Nat) (sends : Nat → SendResult) (len promptCount : Nat)
    (hfirst : isEmptyResponse (sends 0) = false) :
    (startChatSession (some a) draw sends len promptCount).success = true ∧
    (startChatSession (some a) draw sends len promptCount).sendCalls =
      promptCount + 1 := by
  refine ⟨by simp [startChatSession, hfirst], ?_⟩
  simp [startChatSession, hfirst]
  omega

/-- Witness for C7 (amended) at a concrete input: opening send succeeds,
every loop send fails (empty response); the session still completes with
all 3 sends made. -/
theorem startChatSession_loop_send_failure_not_fatal_witness :
    (startChatSession (some 1) (fun _ => 0)
        (fun k => if k = 0 then .messages ["ok"] else .messages []) 3
        2).success = true ∧
    (startChatSession (some 1) (fun _ => 0)
        (fun k => if k = 0 then .messages ["ok"] else .messages []) 3
        2).sendCalls = 3 :=
  startChatSession_loop_send_failure_not_fatal 1 (fun _ => 0)
    (fun k => if k = 0 then .messages ["ok"] else .messages []) 3 2 rfl

/-- C7 counterexample: the very first send of the session failing (empty
response) IS fatal — `startChatSession` returns failure after that single
send, never attempting the 4 planned follow-up messages, contradicting
"a single failed turn — including the very first send of the session — is
not fatal to the session". -/
theorem startChatSession_first_send_failure_fatal :
    startChatSession (some 4717) (fun _ => 0) (fun _ => .messages []) 3 4 =
      ⟨false, 1, []⟩ := by
  rfl

/-- The `'0x'` prefix tag, as a character list (keys are modelled as
character lists). -/
def tag0x : List Char := ['0', 'x']

/-- `privateKey.startsWith('0x')` from `initWallet` (src/wallet.js). -/
def hasTag0x : List Char → Bool
  | '0' :: 'x' :: _ => true
  | _ => false

/-- The key actually handed to `new ethers.Wallet(...)` by `initWallet`:
the raw key when it already starts with `0x`, otherwise `0x` prepended. -/
def normalizeKey (privateKey : List Char) : List Char :=
  if hasTag0x privateKey then privateKey else tag0x ++ privateKey

/-- The object `initWallet` returns on success. -/
structure WalletInfo (Addr : Type) where
  address : Addr
  privateKey : List Char

/-- `initWallet` (src/wallet.js lines 12-28).  `walletOf` models the
external `ethers.Wallet` constructor: `none` when the constructor throws
on invalid key material (the catch block then returns null), otherwise the
derived identity.  The function normalizes the key before constructing the
wallet and returns `{ address, privateKey }`. -/
def initWallet {Addr : Type} (walletOf : List Char → Option Addr)
    (privateKey : List Char) : Option (WalletInfo Addr) :=
  match walletOf (normalizeKey privateKey) with
  | none => none
  | some a => some ⟨a, normalizeKey privateKey⟩

lemma hasTag0x_append (k : List Char) : hasTag0x (tag0x ++ k) = true := by
  rfl

/-- C9: `initWallet` accepts a secret key with or without the `0x` prefix:
a key not starting with `0x` yields the same wallet address as its
`0x`-prefixed form; and whenever the wallet constructor rejects the
(normalized) key, `initWallet` returns null instead of throwing. -/
theorem initWallet_prefix_and_invalid (Addr : Type)
    (walletOf : List Char → Option Addr) :
    (∀ k, hasTag0x k = false →
      Option.map (fun w => w.address) (initWallet walletOf k) =
        Option.map (fun w => w.address) (initWallet walletOf (tag0x ++ k))) ∧
    (∀ k, walletOf (normalizeKey k) = none → initWallet walletOf k = none) := by
  constructor
  · intro k hk
    have hnorm : normalizeKey k = tag0x ++ k := by
      unfold normalizeKey
      rw [hk]
      simp
    have hnorm2 : normalizeKey (tag0x ++ k) = tag0x ++ k := by
      unfold normalizeKey
      rw [hasTag0x_append k]
      simp
    unfold initWallet
    rw [hnorm, hnorm2]
  · intro k hk
    unfold initWallet
    rw [hk]

/-- Witness for C9 at a concrete input: a fake wallet constructor that
recognizes only the key `0xa` maps the bare key `a` and the prefixed key
`0xa` to the same address, and returns null on the unknown key `b`. -/
theorem initWallet_prefix_and_invalid_witness :
    Option.map (fun w => w.address)
        (initWallet (fun k => if k = tag0x ++ ['a'] then some 7 else none)
          ['a']) =
      Option.map (fun w => w.address)
        (initWallet (fun k => if k = tag0x ++ ['a'] then some 7 else none)
          (tag0x ++ ['a'])) ∧
    initWallet (fun k => if k = tag0x ++ ['a'] then some (7 : Nat) else none)
      ['b'] = none :=
  ⟨(initWallet_prefix_and_invalid Nat
      (fun k => if k = tag0x ++ ['a'] then some 7 else none)).1 ['a'] rfl,
    (initWallet_prefix_and_invalid Nat
      (fun k => if k = tag0x ++ ['a'] then some 7 else none)).2 ['b']
      (by decide)⟩

/-- `getWorkingProxy` (utils/proxy.js lines 165-181).  `pool` is the
`proxies` argument (`none` models a null/undefined pool); `shuffle` the
random-comparator `[...proxies].sort(() => 0.5 - Math.random())` (an
arbitrary rearrangement of the pool); `working` the `isProxyWorking`
health check.  The loop tests at most the first `min(5, length)` shuffled
proxies and returns the first that passes; if none passes it returns
`shuffled[0]` without any health check (`none` only when the pool itself
was empty). -/
def getWorkingProxy {P : Type} (pool : Option (List P))
    (shuffle : List P → List P) (working : P → Bool) : Option P :=
  match pool with
  | none => none
  | some ps =>
    if ps.length = 0 then none
    else
      match (List.take 5 (shuffle ps)).find? working with
      | some p => some p
      | none => (shuffle ps).head?

/-- C10: `getWorkingProxy` returns null only when the proxy pool is
missing or empty; when the pool is non-empty and none of the (up to 5)
sampled proxies passes the health check, it still returns the first proxy
of the shuffled pool, unverified. -/
theorem getWorkingProxy_fallback (P : Type) (shuffle : List P → List P)
    (working : P → Bool)
    (hlen : ∀ l, (shuffle l).length = l.length) :
    (getWorkingProxy (P := P) none shuffle working = none) ∧
    (∀ ps : List P,
      (getWorkingProxy (some ps) shuffle working = none ↔ ps = [])) ∧
    (∀ ps : List P, ps ≠ [] →
      (∀ p ∈ List.take 5 (shuffle ps), working p = false) →
      getWorkingProxy (some ps) shuffle working = (shuffle ps).head? ∧
        (shuffle ps).head? ≠ none) := by
  have hsome : ∀ ps : List P, getWorkingProxy (some ps) shuffle working =
      if ps.length = 0 then none
      else
        match (List.take 5 (shuffle ps)).find? working with
        | some p => some p
        | none => (shuffle ps).head? := fun ps => rfl
  refine ⟨rfl, ?_, ?_⟩
  · intro ps
    constructor
    · intro h
      by_contra hne
      have hps : ps.length ≠ 0 := fun h0 => hne (List.length_eq_zero.mp h0)
      rcases hfind : (List.take 5 (shuffle ps)).find? working with _ | p
      · rw [hsome ps, if_neg hps, hfind] at h
        dsimp only at h
        have hnil := List.head?_eq_none_iff.mp h
        apply hps
        have hl := hlen ps
        rw [hnil] at hl
        simpa using hl.symm
      · rw [hsome ps, if_neg hps, hfind] at h
        exact Option.noConfusion h
    · intro h
      subst h
      rfl
  · intro ps hne hfail
    have hfind : (List.take 5 (shuffle ps)).find? working = none :=
      List.find?_eq_none.mpr (fun p hp => by simp [hfail p hp])
    have hps : ps.length ≠ 0 := fun h0 => hne (List.length_eq_zero.mp h0)
    constructor
    · rw [hsome ps, if_neg hps, hfind]
    · intro hhead
      have hnil := List.head?_eq_none_iff.mp hhead
      apply hps
      have hl := hlen ps
      rw [hnil] at hl
      simpa using hl.symm

/-- Witness for C10 at a concrete input: a two-element pool, identity
shuffle, a health check that always fails — the first pool element is
returned unverified; and the empty pool returns none. -/
theorem getWorkingProxy_fallback_witness :
    getWorkingProxy (some [10, 20]) (fun l => l) (fun _ => false) =
      some (10 : Nat) ∧
    getWorkingProxy (some ([] : List Nat)) (fun l => l) (fun _ => false) =
      none := by
  have h := getWorkingProxy_fallback Nat (fun l => l) (fun _ => false)
    (fun l => rfl)
  constructor
  · have h2 := (h.2.2 [10, 20] (by decide) (fun p _ => rfl)).1
    rw [h2]
    rfl
  · exact (h.2.1 []).mpr rfl
